import Mathlib

/-!
# Verification of the SpriteFX pipeline (src/renderer/webgl/pipelines/SpriteFXPipeline.js)

Shallow embedding of the sprite-effects compositor: the render-target ladder
built by `boot`, the bucket lookup of `getSpriteTarget` / `getSwapTarget` /
`getAltSwapTarget`, the quad vertex buffer manipulated by `onResize`, `setUVs`,
`resetUVs` and `setTargetUVs`, the blend-mode handling of `copySprite`, and the
transient sprite-draw state of `batchQuad` / `bindAndDraw`.

Numeric values that are JavaScript doubles in the source are modelled as
rationals (`ℚ`); integer counts and pixel dimensions as `ℕ`/`ℤ`.
-/

namespace SpriteFX

/-! ## Quad vertex buffer

`quadVertexData` is an ArrayBuffer of 168 bytes viewed as 42 Float32 slots
(6 vertices × 7 components `[x, y, u, v, unit, mode, tint]`).  An ArrayBuffer
is zero-initialised.  We model the Float32 view as a function `Fin 42 → ℚ`.
-/

/-- The Float32 view `quadVertexViewF32` of the 168-byte quad vertex buffer:
42 float slots, 6 vertices of 7 components each, indexed 0..41. -/
def Buf : Type := ℕ → ℚ

/-- A single store `vertexViewF32[i] = v`. -/
def writeAt (b : Buf) (i : ℕ) (v : ℚ) : Buf := Function.update b i v

/-- The freshly allocated buffer (`new ArrayBuffer(168)` is zero-filled). -/
def initialBuf : Buf := fun _ => 0

/-- Source `setUVs(uA, vA, uB, vB, uC, vC, uD, vD)`: writes the UV components of the
six vertices at the offsets used in the source (2/3, 9/10, 16/17, 23/24,
30/31, 37/38), with vertex A repeated at slots 2/3 and 23/24 and vertex C
repeated at slots 16/17 and 30/31. -/
def setUVs (b : Buf) (uA vA uB vB uC vC uD vD : ℚ) : Buf :=
  writeAt (writeAt (writeAt (writeAt (writeAt (writeAt
   (writeAt (writeAt (writeAt (writeAt (writeAt (writeAt b
    2 uA) 3 vA) 9 uB) 10 vB) 16 uC) 17 vC) 23 uA) 24 vA) 30 uC) 31 vC) 37 uD) 38 vD

/-- Source `resetUVs()`: restores the identity UV mapping. -/
def resetUVs (b : Buf) : Buf :=
  setUVs b 0 0 0 1 1 1 1 0

/-- Source `onResize(width, height)`: rewrites the position components of the quad.
The source stores `height` at slots 1, 22, 36 and `width` at slots 14, 28, 35,
leaving the remaining position slots (0, 7, 8, 15, 21, 29) untouched. -/
def onResize (b : Buf) (width height : ℚ) : Buf :=
  writeAt (writeAt (writeAt (writeAt (writeAt (writeAt b
    1 height) 22 height) 14 width) 28 width) 35 width) 36 height

/-- Source `setTargetUVs(source, target)` first computes
`diff = target.height / source.height` and then recentres it around `1/2`. -/
def setTargetUVsDiff (sourceHeight targetHeight : ℚ) : ℚ :=
  let diff := targetHeight / sourceHeight
  if diff > 1/2 then (1/2 : ℚ) - (diff - 1/2) else (1/2 : ℚ) + (1/2 - diff)

/-- Source `setTargetUVs(source, target)`: computes `diff` from the two heights and
calls `setUVs(0, diff, 0, 1 + diff, 1, 1 + diff, 1, diff)`. -/
def setTargetUVs (b : Buf) (sourceHeight targetHeight : ℚ) : Buf :=
  let diff := setTargetUVsDiff sourceHeight targetHeight
  setUVs b 0 diff 0 (1 + diff) 1 (1 + diff) 1 diff

/-! ## Render targets and the target ladder -/

/-- Modelled from the spec: a `RenderTarget` (src/renderer/webgl/RenderTarget.js
is not part of the excerpt) "owns a GPU texture + framebuffer pair, fixed
width/height".  Only the fixed dimensions matter to the claims; every
constructor call in `boot` passes explicit width and height (scale 1). -/
structure RenderTarget where
  width : ℕ
  height : ℕ
  deriving DecidableEq, Repr

/-- Source `Math.ceil(a / b)` on natural inputs, as used for
`qty = Math.ceil(minDimension / this.frameInc)`. -/
def natCeilDiv (a b : ℕ) : ℕ := (a + b - 1) / b

/-- Modelled from the spec: `SnapCeil(size, gap, 0, true)`
(src/math/snap/SnapCeil.js is not part of the excerpt) computes the bucket
index by ceiling division, per the spec's "`bucket = ceil(size/64)`" /
"returns the ladder target for `bucket = ceil(size/increment)`". -/
def snapCeilDiv (size gap : ℚ) : ℤ := ⌈size / gap⌉

/-- The per-bucket group width: each ladder bucket holds a primary target and
a swap duplicate, plus an alt-swap duplicate when `altFrame` is set.  This is
also the `offset` computed in `getSpriteTarget`. -/
def groupOffset (altFrame : Bool) : ℕ := if altFrame then 3 else 2

/-- The ladder groups pushed by the `boot` loop for buckets
`i, i+1, ..., i+n-1`: each iteration pushes `groupOffset` identical square
targets of side `i * frameInc`. -/
def ladderAux (frameInc off : ℕ) : ℕ → ℕ → List RenderTarget
  | _, 0 => []
  | i, n + 1 =>
      List.replicate off ⟨i * frameInc, i * frameInc⟩ ++ ladderAux frameInc off (i + 1) n

/-- Source `qty = Math.ceil(min(renderer.width, renderer.height) / frameInc)`. -/
def bootQty (rw rh frameInc : ℕ) : ℕ := natCeilDiv (min rw rh) frameInc

/-- The full `renderTargets` list built by `boot`: the ladder loop runs for
`i = 1 .. qty - 1`, then two (three with `altFrame`) full-screen targets are
pushed, and finally the dedicated full-screen `fsTarget`. -/
def bootRenderTargets (rw rh frameInc : ℕ) (altFrame : Bool) : List RenderTarget :=
  let qty := bootQty rw rh frameInc
  let off := groupOffset altFrame
  ladderAux frameInc off 1 (qty - 1)
    ++ List.replicate off ⟨rw, rh⟩
    ++ [⟨rw, rh⟩]

/-- Source `this.maxDimension = (qty - 1) * this.frameInc` set at the end of `boot`. -/
def bootMaxDimension (rw rh frameInc : ℕ) : ℕ :=
  (bootQty rw rh frameInc - 1) * frameInc

/-- The mutable pipeline fields that the target-selection methods touch.
`textureIndex` is `spriteData.textureIndex` (an `ℤ`, since the JS expression
`(SnapCeil(size, 64, 0, true) - 1) * offset` can be negative). -/
structure PoolState where
  renderTargets : List RenderTarget
  maxDimension : ℕ
  altFrame : Bool
  textureIndex : ℤ
  deriving DecidableEq, Repr

/-- A JavaScript array read `targets[i]`: `undefined` (here `none`) when the
index is negative or out of bounds. -/
def jsGet (l : List RenderTarget) (i : ℤ) : Option RenderTarget :=
  if 0 ≤ i then l[i.toNat]? else none

/-- The index chosen by `getSpriteTarget(size)`: `targets.length - offset`
for oversized requests, `(SnapCeil(size, 64, 0, true) - 1) * offset`
otherwise.  Note the source hard-codes the gap `64` here. -/
def spriteTargetIndex (st : PoolState) (size : ℚ) : ℤ :=
  let off : ℤ := groupOffset st.altFrame
  if size > (st.maxDimension : ℚ) then (st.renderTargets.length : ℤ) - off
  else (snapCeilDiv size 64 - 1) * off

/-- Source `getSpriteTarget(size)`: stores the chosen index into
`spriteData.textureIndex` and returns the target at that index. -/
def getSpriteTarget (st : PoolState) (size : ℚ) : PoolState × Option RenderTarget :=
  let i := spriteTargetIndex st size
  ({ st with textureIndex := i }, jsGet st.renderTargets i)

/-- Source `getSwapTarget()`: the target right after the last-selected one. -/
def getSwapTarget (st : PoolState) : Option RenderTarget :=
  jsGet st.renderTargets (st.textureIndex + 1)

/-- Source `getAltSwapTarget()`: the target two after the last-selected one when
`altFrame` is set; otherwise the method returns `undefined`. -/
def getAltSwapTarget (st : PoolState) : Option RenderTarget :=
  if st.altFrame then jsGet st.renderTargets (st.textureIndex + 2) else none

/-- The pool state right after `boot` (before any sprite has been drawn). -/
def bootState (rw rh frameInc : ℕ) (altFrame : Bool) : PoolState :=
  { renderTargets := bootRenderTargets rw rh frameInc altFrame
    maxDimension := bootMaxDimension rw rh frameInc
    altFrame := altFrame
    textureIndex := 0 }

/-! ## Effective sprite size in `batchQuad` -/

/-- The size `batchQuad` requests a target for: the tight bounding box of the
four quad corners, padded by `fxPadding` on all sides, then
`Math.abs(Math.max(width, height))`. -/
def effectiveQuadSize (x0 y0 x1 y1 x2 y2 x3 y3 padding : ℚ) : ℚ :=
  let bx := min x0 (min x1 (min x2 x3))
  let by' := min y0 (min y1 (min y2 y3))
  let br := max x0 (max x1 (max x2 x3))
  let bb := max y0 (max y1 (max y2 y3))
  let bw := br - bx
  let bh := bb - by'
  let width := bw + padding * 2
  let height := bh + padding * 2
  |max width height|

/-! ## `copySprite` and the blend-mode discipline

`copySprite` issues a fixed sequence of GL commands.  We record that sequence
as a trace and interpret the blend-mode state over it: `setBlendMode` is the
only command of the sequence that changes the renderer's current blend mode.
-/

/-- Modelled from the spec: `BlendModes.ERASE` (src/renderer/BlendModes.js is
not part of the excerpt), the "subtractive erase blend mode" constant.  Its
numeric value is irrelevant to the claims; only its identity matters. -/
def ERASE : ℕ := 17

/-- The GL-level commands `copySprite` issues, in source order. -/
inductive GLCmd where
  | activeTexture (unit : ℕ)
  | bindSourceTexture
  | viewport (x y : ℤ) (w h : ℕ)
  | bindTargetFramebuffer
  | framebufferTexture2D
  | clearColr (r g b a : ℚ)
  | clearColorBuffer
  | setBlendMode (mode : ℕ)
  | bufferData
  | drawArrays (first count : ℕ)
  | unbindFramebuffer
  deriving DecidableEq, Repr

/-- The command trace of
`copySprite(source, target, clear, clearAlpha, eraseMode)`, following lines
858-901 of the source.  `currentBlendMode` is the renderer's blend mode at
entry; in erase mode it is read into a local just before switching to ERASE
and written back right after the draw. -/
def copySpriteCmds (currentBlendMode : ℕ) (source target : RenderTarget)
    (clear clearAlpha eraseMode : Bool) : List GLCmd :=
  [GLCmd.activeTexture 0, GLCmd.bindSourceTexture]
  ++ (if source.height > target.height then
        [GLCmd.viewport 0 0 source.width source.height]
      else
        [GLCmd.viewport 0 ((target.height : ℤ) - source.height) source.width source.height])
  ++ [GLCmd.bindTargetFramebuffer, GLCmd.framebufferTexture2D]
  ++ (if clear then
        [GLCmd.clearColr 0 0 0 (if clearAlpha then 0 else 1), GLCmd.clearColorBuffer]
      else [])
  ++ (if eraseMode then [GLCmd.setBlendMode ERASE] else [])
  ++ [GLCmd.bufferData, GLCmd.drawArrays 0 6]
  ++ (if eraseMode then [GLCmd.setBlendMode currentBlendMode] else [])
  ++ [GLCmd.unbindFramebuffer]

/-- The effect of `copySprite` on the quad vertex buffer: `setTargetUVs` when
the source is taller than the target, `resetUVs` otherwise. -/
def copySpriteQuadBuf (b : Buf) (source target : RenderTarget) : Buf :=
  if (source.height : ℚ) > (target.height : ℚ) then
    setTargetUVs b source.height target.height
  else
    resetUVs b

/-- One step of the renderer's blend-mode state under a GL command. -/
def stepBlend (m : ℕ) : GLCmd → ℕ
  | GLCmd.setBlendMode m' => m'
  | _ => m

/-- The renderer's blend mode after executing a command list. -/
def execBlend (m : ℕ) (cmds : List GLCmd) : ℕ :=
  cmds.foldl stepBlend m

/-- The blend modes in force at each `drawArrays` call of a command list. -/
def drawBlends (m : ℕ) : List GLCmd → List ℕ
  | [] => []
  | c :: cs =>
      (match c with
       | GLCmd.drawArrays _ _ => [m]
       | _ => []) ++ drawBlends (stepBlend m c) cs

/-! ## `batchQuad` and the transient sprite-draw state

`batchQuad` records the sprite and the chosen target index into `spriteData`,
draws, and ends through the default `onDraw → drawToGame → bindAndDraw` path,
which nulls the `sprite` and `texture` references.  Sprites and textures are
identified by opaque numeric handles; the tint fields of `spriteData` are
never written on this path (the only writer, `drawSprite`, is commented out
in the source). -/

/-- The pipeline state touched by `batchQuad`'s sprite-data lifecycle:
the target pool (including `spriteData.textureIndex`), the `spriteData.sprite`
and `spriteData.texture` references, and the `spriteData` tint fields. -/
structure BatchState where
  pool : PoolState
  sprite : Option ℕ
  texture : Option ℕ
  tintTL : ℕ
  tintTR : ℕ
  tintBL : ℕ
  tintBR : ℕ
  deriving DecidableEq, Repr

/-- The opening of `batchQuad`: `getSpriteTarget` stores the chosen index in
`spriteData.textureIndex` and `spriteData.sprite` is set to the game object.
Returns the selected render target alongside the updated state. -/
def batchQuadStart (st : BatchState) (gameObject : ℕ) (size : ℚ) :
    BatchState × Option RenderTarget :=
  let res := getSpriteTarget st.pool size
  ({ st with pool := res.1, sprite := some gameObject }, res.2)

/-- Source `bindAndDraw(source)`: after the final flush it clears the hanging
references (`spriteData.sprite = null; spriteData.texture = null`). -/
def bindAndDraw (st : BatchState) : BatchState :=
  { st with sprite := none, texture := none }

/-- Source `drawToGame(source)`: sets the copy shader and calls `bindAndDraw`. -/
def drawToGame (st : BatchState) : BatchState :=
  bindAndDraw st

/-- The default `onDraw(target)` implementation: `drawToGame(target)`. -/
def onDrawDefault (st : BatchState) : BatchState :=
  drawToGame st

/-- A complete `batchQuad` pass through the default
`onDraw → drawToGame → bindAndDraw` path, together with its return value
(`batchQuad` always returns `true`). -/
def batchQuadRun (st : BatchState) (gameObject : ℕ) (size : ℚ) :
    BatchState × Bool :=
  let opened := batchQuadStart st gameObject size
  (onDrawDefault opened.1, true)

/-! ## Structure of the boot-time target list -/

theorem ladderAux_length (inc off : ℕ) (i n : ℕ) :
    (ladderAux inc off i n).length = n * off := by
  induction n generalizing i with
  | zero => simp [ladderAux]
  | succ n ih =>
    simp [ladderAux, ih]
    ring

theorem ladderAux_get (inc off : ℕ) (i n j r : ℕ) (hj : j < n) (hr : r < off) :
    (ladderAux inc off i n)[j * off + r]? =
      some ⟨(i + j) * inc, (i + j) * inc⟩ := by
  induction n generalizing i j with
  | zero => omega
  | succ n ih =>
    cases j with
    | zero =>
      rw [ladderAux]
      rw [List.getElem?_append_left (by simpa using hr)]
      simp [List.getElem?_replicate, hr]
    | succ j =>
      rw [ladderAux]
      rw [List.getElem?_append_right (by simp; nlinarith)]
      have hsub : (j + 1) * off + r - (List.replicate off
          (⟨i * inc, i * inc⟩ : RenderTarget)).length = j * off + r := by
        simp
        ring_nf
        omega
      rw [hsub, ih (i + 1) j (by omega)]
      congr 2 <;> ring_nf

theorem bootRenderTargets_length (rw rh inc : ℕ) (af : Bool) :
    (bootRenderTargets rw rh inc af).length
      = (bootQty rw rh inc - 1) * groupOffset af + groupOffset af + 1 := by
  simp [bootRenderTargets, ladderAux_length]
  ring

/-- Every slot of a ladder bucket group `j` (zero-based) holds the square
target of side `(j + 1) * frameInc`. -/
theorem boot_get_ladder (rw rh inc : ℕ) (af : Bool) (j r : ℕ)
    (hj : j < bootQty rw rh inc - 1) (hr : r < groupOffset af) :
    (bootRenderTargets rw rh inc af)[j * groupOffset af + r]?
      = some ⟨(j + 1) * inc, (j + 1) * inc⟩ := by
  unfold bootRenderTargets
  rw [List.append_assoc]
  rw [List.getElem?_append_left ?hlt]
  case hlt =>
    rw [ladderAux_length]
    have h1 : j * groupOffset af + r < (j + 1) * groupOffset af := by
      simp [Nat.succ_mul]
      omega
    have h2 : (j + 1) * groupOffset af ≤ (bootQty rw rh inc - 1) * groupOffset af :=
      Nat.mul_le_mul_right _ (by omega)
    omega
  have := ladderAux_get inc (groupOffset af) 1 (bootQty rw rh inc - 1) j r hj hr
  rw [this]
  congr 2 <;> ring_nf

/-- Every slot of the full-screen tier (positions `(qty - 1) * off + k` for
`k = 0 .. off`, i.e. the primary, the swap, the optional alt and the
`fsTarget`) holds the `renderer.width × renderer.height` target. -/
theorem boot_get_fs (rw rh inc : ℕ) (af : Bool) (k : ℕ) (hk : k ≤ groupOffset af) :
    (bootRenderTargets rw rh inc af)[(bootQty rw rh inc - 1) * groupOffset af + k]?
      = some ⟨rw, rh⟩ := by
  unfold bootRenderTargets
  rw [List.append_assoc]
  rw [List.getElem?_append_right (by rw [ladderAux_length]; omega)]
  rw [ladderAux_length]
  have hsub : (bootQty rw rh inc - 1) * groupOffset af + k
      - (bootQty rw rh inc - 1) * groupOffset af = k := by omega
  rw [hsub]
  by_cases h : k < groupOffset af
  · rw [List.getElem?_append_left (by simpa using h)]
    simp [List.getElem?_replicate, h]
  · have hke : k = groupOffset af := by omega
    rw [List.getElem?_append_right (by simp [hke])]
    simp [hke]

theorem bootQty_pos (rw rh : ℕ) (hrw : 0 < rw) (hrh : 0 < rh) :
    1 ≤ bootQty rw rh 64 := by
  unfold bootQty natCeilDiv
  have : 1 ≤ min rw rh := by omega
  omega

theorem jsGet_spriteIndex_add (rw rh : ℕ) (af : Bool) (s : ℚ) (r : ℕ)
    (hrw : 0 < rw) (hrh : 0 < rh) (hs : 0 < s) (hr : r < groupOffset af) :
    (s ≤ (bootMaxDimension rw rh 64 : ℚ) →
        jsGet (bootRenderTargets rw rh 64 af)
          (spriteTargetIndex (bootState rw rh 64 af) s + r)
          = some ⟨(⌈s / 64⌉).toNat * 64, (⌈s / 64⌉).toNat * 64⟩)
  ∧ ((bootMaxDimension rw rh 64 : ℚ) < s →
        jsGet (bootRenderTargets rw rh 64 af)
          (spriteTargetIndex (bootState rw rh 64 af) s + r) = some ⟨rw, rh⟩) := by
  have hq : 1 ≤ bootQty rw rh 64 := bootQty_pos rw rh hrw hrh
  have hoffpos : (0:ℤ) ≤ (groupOffset af : ℤ) := by positivity
  constructor
  · -- ladder case
    intro hle
    have hnot : ¬ (s > ((bootState rw rh 64 af).maxDimension : ℚ)) := by
      simpa [bootState] using not_lt.mpr hle
    have hidx : spriteTargetIndex (bootState rw rh 64 af) s
        = (⌈s / 64⌉ - 1) * (groupOffset af : ℤ) := by
      simp [spriteTargetIndex, hnot, snapCeilDiv, bootState]
      intro h
      exact absurd h (not_lt.mpr hle)
    have hb1 : 1 ≤ ⌈s / 64⌉ := by
      have h0 : (0:ℚ) < s / 64 := by positivity
      have := Int.lt_ceil.mpr (show ((0:ℤ):ℚ) < s / 64 by exact_mod_cast h0)
      omega
    set bn := (⌈s / 64⌉).toNat with hbn
    have hbcast : (bn : ℤ) = ⌈s / 64⌉ := Int.toNat_of_nonneg (by omega)
    have hbn1 : 1 ≤ bn := by omega
    have hbq : (⌈s / 64⌉ : ℤ) ≤ ((bootQty rw rh 64 - 1 : ℕ) : ℤ) := by
      rw [Int.ceil_le]
      have h64 : (0:ℚ) < 64 := by norm_num
      rw [div_le_iff₀ h64]
      calc s ≤ (bootMaxDimension rw rh 64 : ℚ) := hle
        _ = ((bootQty rw rh 64 - 1 : ℕ) : ℚ) * 64 := by
              unfold bootMaxDimension
              push_cast
              ring
    have hbq' : bn ≤ bootQty rw rh 64 - 1 := by omega
    have h1 : ⌈s / 64⌉ - 1 = ((bn - 1 : ℕ) : ℤ) := by omega
    have htn : (spriteTargetIndex (bootState rw rh 64 af) s + r).toNat
        = (bn - 1) * groupOffset af + r := by
      rw [hidx, h1]
      have h2 : ((bn - 1 : ℕ) : ℤ) * (groupOffset af : ℤ) + (r : ℤ)
          = (((bn - 1) * groupOffset af + r : ℕ) : ℤ) := by push_cast; ring
      rw [h2, Int.toNat_natCast]
    have hpos : 0 ≤ spriteTargetIndex (bootState rw rh 64 af) s + r := by
      rw [hidx]
      have := mul_nonneg (show (0:ℤ) ≤ ⌈s / 64⌉ - 1 by omega) hoffpos
      omega
    rw [jsGet, if_pos hpos, htn]
    rw [boot_get_ladder rw rh 64 af (bn - 1) r (by omega) hr]
    congr 2 <;> omega
  · -- oversized case
    intro hgt
    have hyes : s > ((bootState rw rh 64 af).maxDimension : ℚ) := by
      simpa [bootState] using hgt
    have hidx : spriteTargetIndex (bootState rw rh 64 af) s
        = ((bootRenderTargets rw rh 64 af).length : ℤ) - (groupOffset af : ℤ) := by
      simp [spriteTargetIndex, bootState, hyes]
      intro h
      exact absurd hgt (not_lt.mpr h)
    have hlen : (bootRenderTargets rw rh 64 af).length
        = (bootQty rw rh 64 - 1) * groupOffset af + groupOffset af + 1 :=
      bootRenderTargets_length rw rh 64 af
    have htn : (spriteTargetIndex (bootState rw rh 64 af) s + r).toNat
        = (bootQty rw rh 64 - 1) * groupOffset af + (1 + r) := by
      rw [hidx, hlen]
      push_cast
      omega
    have hpos : 0 ≤ spriteTargetIndex (bootState rw rh 64 af) s + r := by
      rw [hidx, hlen]
      push_cast
      omega
    rw [jsGet, if_pos hpos, htn]
    exact boot_get_fs rw rh 64 af (1 + r) (by omega)

/-! ## Claim theorems: target selection -/

theorem ceil_le_qty_sub_one (rw rh : ℕ) (s : ℚ)
    (hle : s ≤ (bootMaxDimension rw rh 64 : ℚ)) :
    ⌈s / 64⌉ ≤ ((bootQty rw rh 64 - 1 : ℕ) : ℤ) := by
  rw [Int.ceil_le]
  rw [div_le_iff₀ (show (0:ℚ) < 64 by norm_num)]
  calc s ≤ (bootMaxDimension rw rh 64 : ℚ) := hle
    _ = ((bootQty rw rh 64 - 1 : ℕ) : ℚ) * 64 := by
          unfold bootMaxDimension
          push_cast
          ring
    _ = (((bootQty rw rh 64 - 1 : ℕ) : ℤ) : ℚ) * 64 := by push_cast; ring

/-- Claim C1: In a booted pipeline, for every requested size `s` with
`0 < s ≤ maxDimension`, `getSpriteTarget(s)` returns the square ladder target
for bucket `⌈s / 64⌉` — side `⌈s / 64⌉ * 64`, so `width = height ≥ s` — and
for every `s > maxDimension` it returns the designated full-screen-sized
target (a defined target: silent fallback, no error). -/
theorem getSpriteTarget_size_spec (rw rh : ℕ) (af : Bool) (s : ℚ)
    (hrw : 0 < rw) (hrh : 0 < rh) (hs : 0 < s) :
    (s ≤ (bootMaxDimension rw rh 64 : ℚ) →
        (getSpriteTarget (bootState rw rh 64 af) s).2
          = some ⟨(⌈s / 64⌉).toNat * 64, (⌈s / 64⌉).toNat * 64⟩
      ∧ s ≤ (((⌈s / 64⌉).toNat * 64 : ℕ) : ℚ))
  ∧ ((bootMaxDimension rw rh 64 : ℚ) < s →
      (getSpriteTarget (bootState rw rh 64 af) s).2 = some ⟨rw, rh⟩) := by
  have hoff : 0 < groupOffset af := by cases af <;> simp [groupOffset]
  have hmain := jsGet_spriteIndex_add rw rh af s 0 hrw hrh hs hoff
  constructor
  · intro hle
    constructor
    · have := hmain.1 hle
      simpa [getSpriteTarget, bootState] using this
    · have h1 : s / 64 ≤ (⌈s / 64⌉ : ℚ) := Int.le_ceil _
      have h2 : s ≤ (⌈s / 64⌉ : ℚ) * 64 := by
        have := mul_le_mul_of_nonneg_right h1 (show (0:ℚ) ≤ 64 by norm_num)
        calc s = s / 64 * 64 := by ring
          _ ≤ (⌈s / 64⌉ : ℚ) * 64 := this
      have hb0 : (0:ℤ) ≤ ⌈s / 64⌉ := Int.ceil_nonneg (by positivity)
      calc s ≤ (⌈s / 64⌉ : ℚ) * 64 := h2
        _ = (((⌈s / 64⌉).toNat * 64 : ℕ) : ℚ) := by
            have : ((⌈s / 64⌉.toNat : ℕ) : ℚ) = ((⌈s / 64⌉ : ℤ) : ℚ) := by
              exact_mod_cast congrArg (fun z : ℤ => (z : ℚ)) (Int.toNat_of_nonneg hb0)
            push_cast
            rw [this]
  · intro hgt
    have := hmain.2 hgt
    simpa [getSpriteTarget, bootState] using this

/-- Witness for C1 at a concrete booted pipeline (800×600 viewport,
`altFrame = false`): size 150 gets the 192×192 bucket-3 target, size 1000
gets the full-screen target. -/
theorem getSpriteTarget_size_spec_witness :
    (getSpriteTarget (bootState 800 600 64 false) 150).2 = some ⟨192, 192⟩
  ∧ (getSpriteTarget (bootState 800 600 64 false) 1000).2 = some ⟨800, 600⟩ := by
  have hmd : bootMaxDimension 800 600 64 = 576 := by decide
  have hceil : ⌈(150:ℚ) / 64⌉ = 3 := by
    rw [Int.ceil_eq_iff]
    constructor <;> norm_num
  constructor
  · have h := (getSpriteTarget_size_spec 800 600 false 150 (by norm_num) (by norm_num)
      (by norm_num)).1 (by rw [hmd]; norm_num)
    rw [h.1, hceil]
    rfl
  · exact (getSpriteTarget_size_spec 800 600 false 1000 (by norm_num) (by norm_num)
      (by norm_num)).2 (by rw [hmd]; norm_num)

theorem spriteTargetIndex_mono_general (st : PoolState) (q1 : ℕ) (s1 s2 : ℚ)
    (hmd : st.maxDimension = q1 * 64)
    (hlen : st.renderTargets.length
      = q1 * groupOffset st.altFrame + groupOffset st.altFrame + 1)
    (h12 : s1 ≤ s2) :
    spriteTargetIndex st s1 ≤ spriteTargetIndex st s2 := by
  have hOpos : (0:ℤ) ≤ (groupOffset st.altFrame : ℤ) := by positivity
  by_cases h1 : s1 > (st.maxDimension : ℚ)
  · have h2 : s2 > (st.maxDimension : ℚ) := lt_of_lt_of_le h1 h12
    simp [spriteTargetIndex, h1, h2]
  · push_neg at h1
    have hb1 : ⌈s1 / 64⌉ ≤ (q1 : ℤ) := by
      rw [Int.ceil_le, div_le_iff₀ (show (0:ℚ) < 64 by norm_num)]
      calc s1 ≤ (st.maxDimension : ℚ) := h1
        _ = ((q1 : ℤ) : ℚ) * 64 := by rw [hmd]; push_cast; ring
    by_cases h2 : s2 > (st.maxDimension : ℚ)
    · simp only [spriteTargetIndex, if_pos h2, if_neg (not_lt.mpr h1), snapCeilDiv]
      rw [hlen]
      push_cast
      have hmul : (⌈s1 / 64⌉ - 1) * (groupOffset st.altFrame : ℤ)
          ≤ ((q1:ℤ) - 1) * (groupOffset st.altFrame : ℤ) :=
        mul_le_mul_of_nonneg_right (by omega) hOpos
      nlinarith
    · push_neg at h2
      simp only [spriteTargetIndex, if_neg (not_lt.mpr h1), if_neg (not_lt.mpr h2), snapCeilDiv]
      have hd : s1 / 64 ≤ s2 / 64 := by gcongr
      exact mul_le_mul_of_nonneg_right (by have := Int.ceil_le_ceil hd; omega) hOpos

/-- Claim C8: Bucket selection is monotonic in a booted pipeline: for sizes
`s1 < s2`, the render-target index selected by `getSpriteTarget` for `s1` is
at most the index selected for `s2`. -/
theorem spriteTargetIndex_monotone (rw rh : ℕ) (af : Bool) (s1 s2 : ℚ)
    (hrw : 0 < rw) (hrh : 0 < rh) (h12 : s1 < s2) :
    spriteTargetIndex (bootState rw rh 64 af) s1
      ≤ spriteTargetIndex (bootState rw rh 64 af) s2 := by
  apply spriteTargetIndex_mono_general (bootState rw rh 64 af) (bootQty rw rh 64 - 1)
  · rfl
  · exact bootRenderTargets_length rw rh 64 af
  · exact le_of_lt h12

/-- Witness for C8: in the 800×600 pipeline, size 150 selects an index at
most the index selected for size 700. -/
theorem spriteTargetIndex_monotone_witness :
    spriteTargetIndex (bootState 800 600 64 false) 150
      ≤ spriteTargetIndex (bootState 800 600 64 false) 700 :=
  spriteTargetIndex_monotone 800 600 false 150 700 (by norm_num) (by norm_num)
    (by norm_num)

/-- Claim C10: `getAltSwapTarget()` returns no target (`undefined`) whenever
`altFrame` is false; with `altFrame = true`, after `getSpriteTarget(s)` it
returns the target at the last-selected texture index plus 2, which has the
same dimensions as the target `getSpriteTarget` selected. -/
theorem getAltSwapTarget_spec (rw rh : ℕ) (st : PoolState) (s : ℚ)
    (hrw : 0 < rw) (hrh : 0 < rh) (hs : 0 < s) :
    (st.altFrame = false → getAltSwapTarget st = none)
  ∧ (∃ sel alt,
      (getSpriteTarget (bootState rw rh 64 true) s).2 = some sel
      ∧ getAltSwapTarget (getSpriteTarget (bootState rw rh 64 true) s).1 = some alt
      ∧ alt.width = sel.width ∧ alt.height = sel.height) := by
  constructor
  · intro h
    simp [getAltSwapTarget, h]
  · have h0 := jsGet_spriteIndex_add rw rh true s 0 hrw hrh hs (by simp [groupOffset])
    have h2 := jsGet_spriteIndex_add rw rh true s 2 hrw hrh hs (by simp [groupOffset])
    by_cases hle : s ≤ (bootMaxDimension rw rh 64 : ℚ)
    · refine ⟨⟨(⌈s / 64⌉).toNat * 64, (⌈s / 64⌉).toNat * 64⟩,
        ⟨(⌈s / 64⌉).toNat * 64, (⌈s / 64⌉).toNat * 64⟩, ?_, ?_, rfl, rfl⟩
      · simpa [getSpriteTarget, bootState] using h0.1 hle
      · have := h2.1 hle
        simpa [getAltSwapTarget, getSpriteTarget, bootState] using this
    · push_neg at hle
      refine ⟨⟨rw, rh⟩, ⟨rw, rh⟩, ?_, ?_, rfl, rfl⟩
      · simpa [getSpriteTarget, bootState] using h0.2 hle
      · have := h2.2 hle
        simpa [getAltSwapTarget, getSpriteTarget, bootState] using this

/-- Witness for C10: with `altFrame = false` no alt-swap target exists; the
800×600 `altFrame = true` pipeline pairs the selected target for size 150
with a same-sized alt-swap target. -/
theorem getAltSwapTarget_spec_witness :
    getAltSwapTarget (bootState 800 600 64 false) = none
  ∧ (∃ sel alt,
      (getSpriteTarget (bootState 800 600 64 true) 150).2 = some sel
      ∧ getAltSwapTarget (getSpriteTarget (bootState 800 600 64 true) 150).1 = some alt
      ∧ alt.width = sel.width ∧ alt.height = sel.height) := by
  have h := getAltSwapTarget_spec 800 600 (bootState 800 600 64 false) 150
    (by norm_num) (by norm_num) (by norm_num)
  exact ⟨h.1 rfl, h.2⟩


theorem bootQty_pos' (rw rh inc : ℕ) (hrw : 0 < rw) (hrh : 0 < rh)
    (hinc : 0 < inc) : 1 ≤ bootQty rw rh inc := by
  unfold bootQty natCeilDiv
  have h1 : 1 ≤ min rw rh := by omega
  have h2 : inc ≤ min rw rh + inc - 1 := by omega
  exact (Nat.one_le_div_iff hinc).mpr h2

/-- Claim C2: `boot` builds the ladder: the target list consists of
`qty - 1 = ⌈min(w,h)/inc⌉ - 1` bucket groups — group `j` (zero-based) holding
`groupOffset` identical square targets of side `(j+1)*inc` (primary, swap,
and alt-swap when `altFrame`) — followed by `groupOffset + 1` full-screen
targets (primary, swap, optional alt, plus the dedicated `fsTarget`); bucket
sizes are strictly increasing multiples of the increment, and `maxDimension`
is the side of the last bucket's target. -/
theorem boot_ladder_spec (rw rh inc : ℕ) (af : Bool)
    (hrw : 0 < rw) (hrh : 0 < rh) (hinc : 0 < inc) :
    (bootRenderTargets rw rh inc af).length
        = bootQty rw rh inc * groupOffset af + 1
  ∧ (∀ j r, j < bootQty rw rh inc - 1 → r < groupOffset af →
      (bootRenderTargets rw rh inc af)[j * groupOffset af + r]?
        = some ⟨(j + 1) * inc, (j + 1) * inc⟩)
  ∧ (∀ k, k ≤ groupOffset af →
      (bootRenderTargets rw rh inc af)[(bootQty rw rh inc - 1) * groupOffset af + k]?
        = some ⟨rw, rh⟩)
  ∧ (∀ j1 j2 t1 t2, j1 < j2 → j2 < bootQty rw rh inc - 1 →
      (bootRenderTargets rw rh inc af)[j1 * groupOffset af]? = some t1 →
      (bootRenderTargets rw rh inc af)[j2 * groupOffset af]? = some t2 →
      t1.width = t1.height ∧ t1.width < t2.width ∧ inc ∣ t1.width)
  ∧ (2 ≤ bootQty rw rh inc →
      (bootRenderTargets rw rh inc af)[(bootQty rw rh inc - 1 - 1) * groupOffset af]?
        = some ⟨bootMaxDimension rw rh inc, bootMaxDimension rw rh inc⟩) := by
  have hq : 1 ≤ bootQty rw rh inc := bootQty_pos' rw rh inc hrw hrh hinc
  have hoff : 0 < groupOffset af := by cases af <;> simp [groupOffset]
  refine ⟨?_, ?_, ?_, ?_, ?_⟩
  · rw [bootRenderTargets_length]
    cases af <;> simp [groupOffset] <;> omega
  · intro j r hj hr
    exact boot_get_ladder rw rh inc af j r hj hr
  · intro k hk
    exact boot_get_fs rw rh inc af k hk
  · intro j1 j2 t1 t2 hj12 hj2 ht1 ht2
    have e1 : (bootRenderTargets rw rh inc af)[j1 * groupOffset af]?
        = some ⟨(j1 + 1) * inc, (j1 + 1) * inc⟩ := by
      have := boot_get_ladder rw rh inc af j1 0 (by omega) hoff
      simpa using this
    have e2 : (bootRenderTargets rw rh inc af)[j2 * groupOffset af]?
        = some ⟨(j2 + 1) * inc, (j2 + 1) * inc⟩ := by
      have := boot_get_ladder rw rh inc af j2 0 hj2 hoff
      simpa using this
    rw [e1] at ht1
    rw [e2] at ht2
    injection ht1 with ht1
    injection ht2 with ht2
    subst ht1
    subst ht2
    refine ⟨rfl, ?_, ?_⟩
    · show (j1 + 1) * inc < (j2 + 1) * inc
      exact (Nat.mul_lt_mul_right hinc).mpr (by omega)
    · show inc ∣ (j1 + 1) * inc
      exact dvd_mul_left inc (j1 + 1)
  · intro h2q
    have hlk := boot_get_ladder rw rh inc af (bootQty rw rh inc - 1 - 1) 0 (by omega) hoff
    simp only [Nat.add_zero] at hlk
    have harg : bootQty rw rh inc - 1 - 1 + 1 = bootQty rw rh inc - 1 := by omega
    rw [harg] at hlk
    rw [hlk]
    rfl

/-- Witness for C2 at the 800×600 viewport with increment 64 and
`altFrame = false`: 9 bucket groups of 2, 3 full-screen targets, 21 targets
in total; bucket 3's primary slot holds the 192×192 target and the last
bucket's 576×576 side equals `maxDimension`. -/
theorem boot_ladder_spec_witness :
    (bootRenderTargets 800 600 64 false).length = 21
  ∧ (bootRenderTargets 800 600 64 false)[2 * 2]? = some ⟨192, 192⟩
  ∧ (bootRenderTargets 800 600 64 false)[9 * 2]? = some ⟨800, 600⟩
  ∧ (bootRenderTargets 800 600 64 false)[8 * 2]?
      = some ⟨bootMaxDimension 800 600 64, bootMaxDimension 800 600 64⟩ := by
  have h := boot_ladder_spec 800 600 64 false (by norm_num) (by norm_num) (by norm_num)
  have hq : bootQty 800 600 64 = 10 := by decide
  refine ⟨?_, ?_, ?_, ?_⟩
  · rw [h.1, hq]
    rfl
  · have := h.2.1 2 0 (by decide) (by decide)
    simpa using this
  · have := h.2.2.1 0 (by decide)
    rw [hq] at this
    simpa using this
  · have := h.2.2.2.2 (by rw [hq]; norm_num)
    rw [hq] at this
    simpa using this


/-- Claim C3 counterexample: With an 800×600 viewport and increment 64 the
claimed bucket count of 8 before the full-screen tier is wrong: 8 buckets of
2 targets plus the 3 full-screen targets would make a 19-element target list,
but `boot` builds 21 targets (`⌈600/64⌉ - 1 = 9` buckets, not 8). -/
theorem boot_800x600_not_eight_buckets :
    ¬ ((bootRenderTargets 800 600 64 false).length = 8 * 2 + 3) := by
  decide

/-- Claim C3 amended: With an 800×600 viewport and increment 64, `boot`
produces `⌈600/64⌉ - 1 = 9` size buckets before the full-screen tier
(21 targets in all); a sprite quad of bounding size 130 with `fxPadding` 10
has effective size 150, which selects bucket `⌈150/64⌉ = 3`, the 192×192
ladder target. -/
theorem boot_800x600_scenario :
    bootQty 800 600 64 - 1 = 9
  ∧ (bootRenderTargets 800 600 64 false).length = 9 * 2 + 3
  ∧ effectiveQuadSize 20 30 20 160 150 160 150 30 10 = 150
  ∧ snapCeilDiv 150 64 = 3
  ∧ (getSpriteTarget (bootState 800 600 64 false) 150).2 = some ⟨192, 192⟩ := by
  have hceil : ⌈(150:ℚ) / 64⌉ = 3 := by
    rw [Int.ceil_eq_iff]
    constructor <;> norm_num
  refine ⟨by decide, by decide, ?_, ?_, ?_⟩
  · unfold effectiveQuadSize
    norm_num
  · unfold snapCeilDiv
    exact hceil
  · have h := (jsGet_spriteIndex_add 800 600 false 150 0 (by norm_num) (by norm_num)
      (by norm_num) (by decide)).1 (by norm_num [bootMaxDimension, bootQty, natCeilDiv])
    rw [hceil] at h
    simpa [getSpriteTarget, bootState] using h


/-! ## Claim theorems: quad vertex buffer -/

/-- The 12 slots holding UV components (u/v of the 6 vertices). -/
def uvSlots : List ℕ := [2, 3, 9, 10, 16, 17, 23, 24, 30, 31, 37, 38]

/-- The 12 slots holding position components (x/y of the 6 vertices). -/
def posSlots : List ℕ := [0, 1, 7, 8, 14, 15, 21, 22, 28, 29, 35, 36]

theorem setUVs_preserves (b : Buf) (uA vA uB vB uC vC uD vD : ℚ) (i : ℕ)
    (hi : i ∉ uvSlots) : setUVs b uA vA uB vB uC vC uD vD i = b i := by
  simp only [uvSlots, List.mem_cons, List.not_mem_nil, or_false] at hi
  push_neg at hi
  obtain ⟨h1, h2, h3, h4, h5, h6, h7, h8, h9, h10, h11, h12⟩ := hi
  simp [setUVs, writeAt, Function.update_apply, h1, h2, h3, h4, h5, h6, h7, h8,
    h9, h10, h11, h12]

theorem setUVs_congr (x y : Buf) (uA vA uB vB uC vC uD vD : ℚ)
    (h : ∀ i, i ∉ uvSlots → x i = y i) (i : ℕ) :
    setUVs x uA vA uB vB uC vC uD vD i = setUVs y uA vA uB vB uC vC uD vD i := by
  by_cases h2 : i ∈ uvSlots
  · simp only [uvSlots] at h2
    fin_cases h2 <;> simp [setUVs, writeAt, Function.update_apply]
  · rw [setUVs_preserves x _ _ _ _ _ _ _ _ i h2,
      setUVs_preserves y _ _ _ _ _ _ _ _ i h2]
    exact h i h2

theorem resetUVs_resetUVs (b : Buf) (i : ℕ) :
    resetUVs (resetUVs b) i = resetUVs b i :=
  setUVs_congr (resetUVs b) b 0 0 0 1 1 1 1 0
    (fun j hj => setUVs_preserves b 0 0 0 1 1 1 1 0 j hj) i

/-- Claim C6: `setUVs` writes exactly the UV components: reading the UV fields
back at the documented vertex offsets reproduces the 4 input UV pairs
(vertex A appearing at both of its slots, likewise C); every slot outside the
12 UV slots — in particular every position component — is unchanged; and
`resetUVs` restores the identity UV mapping (0,0)-(1,1), being exactly
`setUVs(0,0,0,1,1,1,1,0)`. -/
theorem setUVs_spec (b : Buf) (uA vA uB vB uC vC uD vD : ℚ) :
    (setUVs b uA vA uB vB uC vC uD vD 2 = uA
      ∧ setUVs b uA vA uB vB uC vC uD vD 3 = vA
      ∧ setUVs b uA vA uB vB uC vC uD vD 9 = uB
      ∧ setUVs b uA vA uB vB uC vC uD vD 10 = vB
      ∧ setUVs b uA vA uB vB uC vC uD vD 16 = uC
      ∧ setUVs b uA vA uB vB uC vC uD vD 17 = vC
      ∧ setUVs b uA vA uB vB uC vC uD vD 23 = uA
      ∧ setUVs b uA vA uB vB uC vC uD vD 24 = vA
      ∧ setUVs b uA vA uB vB uC vC uD vD 30 = uC
      ∧ setUVs b uA vA uB vB uC vC uD vD 31 = vC
      ∧ setUVs b uA vA uB vB uC vC uD vD 37 = uD
      ∧ setUVs b uA vA uB vB uC vC uD vD 38 = vD)
  ∧ (∀ i, i ∉ uvSlots → setUVs b uA vA uB vB uC vC uD vD i = b i)
  ∧ resetUVs b = setUVs b 0 0 0 1 1 1 1 0
  ∧ (resetUVs b 2 = 0 ∧ resetUVs b 3 = 0 ∧ resetUVs b 9 = 0 ∧ resetUVs b 10 = 1
      ∧ resetUVs b 16 = 1 ∧ resetUVs b 17 = 1 ∧ resetUVs b 37 = 1
      ∧ resetUVs b 38 = 0) := by
  refine ⟨?_, ?_, rfl, ?_⟩
  · refine ⟨?_, ?_, ?_, ?_, ?_, ?_, ?_, ?_, ?_, ?_, ?_, ?_⟩ <;>
      simp [setUVs, writeAt, Function.update]
  · intro i hi
    exact setUVs_preserves b uA vA uB vB uC vC uD vD i hi
  · refine ⟨?_, ?_, ?_, ?_, ?_, ?_, ?_, ?_⟩ <;>
      simp [resetUVs, setUVs, writeAt, Function.update]

/-- Witness for C6: on the zero-initialised buffer, `setUVs(1,2,3,4,5,6,7,8)`
reads back `u0 = 1` and `v3 = 8` at the documented slots and leaves position
slot 14 untouched. -/
theorem setUVs_spec_witness :
    setUVs initialBuf 1 2 3 4 5 6 7 8 2 = 1
  ∧ setUVs initialBuf 1 2 3 4 5 6 7 8 38 = 8
  ∧ setUVs initialBuf 1 2 3 4 5 6 7 8 14 = initialBuf 14 := by
  have h := setUVs_spec initialBuf 1 2 3 4 5 6 7 8
  exact ⟨h.1.1, h.1.2.2.2.2.2.2.2.2.2.2.2, h.2.1 14 (by decide)⟩

/-- Claim C7: After `onResize(width, height)` — starting from any buffer whose
untouched position slots (0, 7, 8, 15, 21, 29) are still zero, as in the
zero-initialised buffer — the position components of the 6 vertices describe
the full-viewport quad (0,height), (0,0), (width,0), (0,height), (width,0),
(width,height): two triangles covering (0,0)-(width,height). -/
theorem onResize_spec (b : Buf) (width height : ℚ)
    (h0 : b 0 = 0) (h7 : b 7 = 0) (h8 : b 8 = 0) (h15 : b 15 = 0)
    (h21 : b 21 = 0) (h29 : b 29 = 0) :
    (onResize b width height 0 = 0 ∧ onResize b width height 1 = height)
  ∧ (onResize b width height 7 = 0 ∧ onResize b width height 8 = 0)
  ∧ (onResize b width height 14 = width ∧ onResize b width height 15 = 0)
  ∧ (onResize b width height 21 = 0 ∧ onResize b width height 22 = height)
  ∧ (onResize b width height 28 = width ∧ onResize b width height 29 = 0)
  ∧ (onResize b width height 35 = width ∧ onResize b width height 36 = height) := by
  refine ⟨⟨?_, ?_⟩, ⟨?_, ?_⟩, ⟨?_, ?_⟩, ⟨?_, ?_⟩, ⟨?_, ?_⟩, ⟨?_, ?_⟩⟩ <;>
    simp [onResize, writeAt, Function.update, h0, h7, h8, h15, h21, h29]

/-- Witness for C7: resizing the freshly allocated zero buffer to 800×600
puts the viewport corners into the position slots. -/
theorem onResize_spec_witness :
    (onResize initialBuf 800 600 0 = 0 ∧ onResize initialBuf 800 600 1 = 600)
  ∧ (onResize initialBuf 800 600 7 = 0 ∧ onResize initialBuf 800 600 8 = 0)
  ∧ (onResize initialBuf 800 600 14 = 800 ∧ onResize initialBuf 800 600 15 = 0)
  ∧ (onResize initialBuf 800 600 21 = 0 ∧ onResize initialBuf 800 600 22 = 600)
  ∧ (onResize initialBuf 800 600 28 = 800 ∧ onResize initialBuf 800 600 29 = 0)
  ∧ (onResize initialBuf 800 600 35 = 800 ∧ onResize initialBuf 800 600 36 = 600) :=
  onResize_spec initialBuf 800 600 rfl rfl rfl rfl rfl rfl


/-- Claim C4: `setTargetUVs(source, target)` computes `diff` from the ratio
`target.height / source.height` by the two-branch recentering formula, then
shifts the quad UVs to (0,diff), (0,1+diff), (1,1+diff), (1,diff).  The same
source/target heights always produce the same `diff`; and when
`source.height = target.height` the `diff` is 0, so `setTargetUVs` after
`resetUVs` leaves the buffer exactly as `resetUVs` left it (no vertical
shift). -/
theorem setTargetUVs_spec (b : Buf) (sh th : ℚ) (hsh : 0 < sh) :
    (setTargetUVsDiff sh th
       = (if th / sh > 1/2 then (1/2 : ℚ) - (th / sh - 1/2)
          else (1/2 : ℚ) + (1/2 - th / sh)))
  ∧ (setTargetUVs b sh th 2 = 0
      ∧ setTargetUVs b sh th 3 = setTargetUVsDiff sh th
      ∧ setTargetUVs b sh th 9 = 0
      ∧ setTargetUVs b sh th 10 = 1 + setTargetUVsDiff sh th
      ∧ setTargetUVs b sh th 16 = 1
      ∧ setTargetUVs b sh th 17 = 1 + setTargetUVsDiff sh th
      ∧ setTargetUVs b sh th 37 = 1
      ∧ setTargetUVs b sh th 38 = setTargetUVsDiff sh th)
  ∧ (∀ sh' th', sh' = sh → th' = th → setTargetUVsDiff sh' th' = setTargetUVsDiff sh th)
  ∧ (sh = th → setTargetUVsDiff sh th = 0
      ∧ ∀ i, setTargetUVs (resetUVs b) sh th i = resetUVs b i) := by
  refine ⟨rfl, ?_, ?_, ?_⟩
  · refine ⟨?_, ?_, ?_, ?_, ?_, ?_, ?_, ?_⟩ <;>
      simp [setTargetUVs, setUVs, writeAt, Function.update]
  · intro sh' th' h1 h2
    rw [h1, h2]
  · intro heq
    have hd : setTargetUVsDiff sh th = 0 := by
      unfold setTargetUVsDiff
      rw [← heq, div_self (ne_of_gt hsh)]
      norm_num
    refine ⟨hd, ?_⟩
    intro i
    simp only [setTargetUVs, hd, add_zero]
    exact resetUVs_resetUVs b i

/-- Witness for C4: with source height 2 and target height 2 the diff is 0;
with source height 2 and target height 1 the slot-3 UV equals the diff. -/
theorem setTargetUVs_spec_witness :
    setTargetUVsDiff 2 2 = 0
  ∧ setTargetUVs initialBuf 2 1 3 = setTargetUVsDiff 2 1 := by
  have h2 := setTargetUVs_spec initialBuf 2 2 (by norm_num)
  have h1 := setTargetUVs_spec initialBuf 2 1 (by norm_num)
  exact ⟨(h2.2.2.2 rfl).1, h1.2.1.2.1⟩


/-! ## Claim theorems: copySprite blend discipline and batchQuad lifecycle -/

/-- Claim C5: For every `copySprite(source, target, clear, clearAlpha,
eraseMode)` call: the renderer's blend mode after the call equals the blend
mode before it; the single quad draw executes under the ERASE blend mode when
`eraseMode` is set and under the untouched entry blend mode otherwise; and
with `eraseMode = false` the command trace contains no blend-mode write at
all.  This holds for every source/target, including zero-sized regions (the
draw is unconditional, so the restore is too). -/
theorem copySprite_blend_spec (m : ℕ) (source target : RenderTarget)
    (clear clearAlpha eraseMode : Bool) :
    execBlend m (copySpriteCmds m source target clear clearAlpha eraseMode) = m
  ∧ drawBlends m (copySpriteCmds m source target clear clearAlpha eraseMode)
      = [if eraseMode then ERASE else m]
  ∧ (eraseMode = false →
      ∀ m', GLCmd.setBlendMode m'
        ∉ copySpriteCmds m source target clear clearAlpha eraseMode) := by
  cases clear <;> cases clearAlpha <;> cases eraseMode <;>
    by_cases h : source.height > target.height <;>
      simp [copySpriteCmds, execBlend, drawBlends, stepBlend, h]

/-- Witness for C5: an erase-mode copy between two zero-sized targets draws
under ERASE and restores blend mode 7 afterwards. -/
theorem copySprite_blend_spec_witness :
    execBlend 7 (copySpriteCmds 7 ⟨0, 0⟩ ⟨0, 0⟩ true true true) = 7
  ∧ drawBlends 7 (copySpriteCmds 7 ⟨0, 0⟩ ⟨0, 0⟩ true true true) = [ERASE] := by
  have h := copySprite_blend_spec 7 ⟨0, 0⟩ ⟨0, 0⟩ true true true
  exact ⟨h.1, by simpa using h.2.1⟩

/-- Claim C9: A complete sprite draw populates the transient `spriteData` at the
start of `batchQuad` — recording the sprite reference and the target index
chosen by `getSpriteTarget` — and, after running through the default
`onDraw → drawToGame → bindAndDraw` path, retains no sprite or texture
reference (both are nulled) and leaves every tint field untouched;
`batchQuad` returns `true`. -/
theorem batchQuad_spriteData_spec (st : BatchState) (gameObject : ℕ) (size : ℚ) :
    (batchQuadStart st gameObject size).1.sprite = some gameObject
  ∧ (batchQuadStart st gameObject size).1.pool.textureIndex
      = spriteTargetIndex st.pool size
  ∧ (batchQuadRun st gameObject size).1.sprite = none
  ∧ (batchQuadRun st gameObject size).1.texture = none
  ∧ (batchQuadRun st gameObject size).1.tintTL = st.tintTL
  ∧ (batchQuadRun st gameObject size).1.tintTR = st.tintTR
  ∧ (batchQuadRun st gameObject size).1.tintBL = st.tintBL
  ∧ (batchQuadRun st gameObject size).1.tintBR = st.tintBR
  ∧ (batchQuadRun st gameObject size).2 = true := by
  refine ⟨rfl, rfl, rfl, rfl, rfl, rfl, rfl, rfl, rfl⟩

end SpriteFX
